import Mathlib

/-
Verification of the execution-payload boundary logic
(beacon_node/beacon_chain/src/execution_payload.rs) and of the
validator-registration data types (consensus/types/src/validator_registration_data.rs).

The Rust functions are embedded as pure Lean functions.  Every interaction
with an external collaborator (the execution engine, fork choice, the block
store, the slot clock) is passed in as an explicit parameter holding that
collaborator's answer, and every call made to a collaborator is recorded, in
order, in a returned list of `Effect` values.  A sequential run of the Rust
function corresponds to evaluating the Lean function; an effect appearing in
the returned trace happened before the function returned its result.
-/

namespace Lighthouse

/-- Execution-layer block hash, beacon block root or other 32-byte value,
represented as a natural number.  The all-zero hash is `0`. -/
abbrev Hash := Nat

/-- Engine response to a new-payload submission.  Modelled from the spec
(the `execution_layer` crate is not part of the sources): the status set is
Valid, Syncing, Accepted, Invalid carrying a latest valid hash,
InvalidTerminalBlock and InvalidBlockHash. -/
inductive PayloadStatus where
  | valid
  | syncing
  | accepted
  | invalid (latest_valid_hash : Hash)
  | invalidTerminalBlock
  | invalidBlockHash
deriving DecidableEq

/-- Fork choice's cached execution status of a tracked block.  Modelled from
the spec (the `proto_array` crate is not part of the sources): a tagged
variant Valid, Optimistic, Irrelevant or Invalid, each carrying a hash. -/
inductive ExecutionStatus where
  | valid (h : Hash)
  | optimistic (h : Hash)
  | irrelevant (h : Hash)
  | invalid (h : Hash)
deriving DecidableEq

/-- Modelled from the spec: the execution block hash exposed by an
`ExecutionStatus` value, used by the builder as the finalized hint. -/
def ExecutionStatus.block_hash : ExecutionStatus → Option Hash
  | .valid h => some h
  | .optimistic h => some h
  | .irrelevant h => some h
  | .invalid h => some h

/-- Result of verifying one payload, from the `fork_choice` crate as
described by the spec: Verified, Optimistic or Irrelevant. -/
inductive PayloadVerificationStatus where
  | verified
  | optimistic
  | irrelevant
deriving DecidableEq

/-- Fork-choice invalidation command, from the spec: InvalidateMany with a
head block root, an always-invalidate-head flag and a latest valid
ancestor. -/
inductive InvalidationOperation where
  | invalidateMany (head_block_root : Hash) (always_invalidate_head : Bool)
      (latest_valid_ancestor : Hash)
deriving DecidableEq

/-- An execution payload: the fields this module reads (`parent_hash`,
`block_hash`, `timestamp`) plus an opaque residue `rest` standing for all
remaining payload content, so that equality with the default payload is
faithful to the full structural equality used by the Rust code. -/
structure ExecutionPayload where
  parent_hash : Hash
  block_hash : Hash
  timestamp : Nat
  rest : Nat
deriving DecidableEq

instance : Inhabited ExecutionPayload := ⟨⟨0, 0, 0, 0⟩⟩

/-- The view of a (signed) beacon block used by this module: its slot, its
parent root, and the execution payload of its body, `none` when the body has
no payload (`block.execution_payload()` fails on such a block). -/
structure BeaconBlock where
  slot : Nat
  parent_root : Hash
  payload : Option ExecutionPayload
deriving DecidableEq

/-- Fork choice's lightweight record of an imported block. -/
structure ProtoBlock where
  root : Hash
  execution_status : ExecutionStatus
deriving DecidableEq

/-- A finalized checkpoint: epoch and block root. -/
structure Checkpoint where
  epoch : Nat
  root : Hash
deriving DecidableEq

/-- The two chain-spec parameters read by this module. -/
structure ChainSpec where
  terminal_block_hash : Hash
  terminal_block_hash_activation_epoch : Nat
deriving DecidableEq

/-- Beacon-chain level errors surfaced through this module:
`UnableToComputeTimeAtSlot` appears literally in the gossip check; every
other beacon-chain error (such as a failing fork-choice invalidation) is an
opaque code. -/
inductive BeaconChainError where
  | unableToComputeTimeAtSlot
  | other (code : Nat)
deriving DecidableEq

/-- The `ExecutionPayloadError` variants produced by this module. -/
inductive ExecutionPayloadError where
  | noExecutionConnection
  | requestFailed (code : Nat)
  | rejectedByExecutionEngine (status : PayloadStatus)
  | invalidPayloadTimestamp (expected found : Nat)
  | invalidTerminalPoWBlock (parent_hash : Hash)
  | invalidActivationEpoch (activation_epoch epoch : Nat)
  | invalidTerminalBlockHash (terminal_block_hash payload_parent_hash : Hash)
deriving DecidableEq

/-- The `BlockError` variants produced by this module.
`incorrectStateVariant` models the failure of `block.execution_payload()`
on a block whose body carries no payload. -/
inductive BlockError where
  | executionPayloadError (e : ExecutionPayloadError)
  | perBlockProcessingError (code : Nat)
  | parentExecutionPayloadInvalid (parent_root : Hash)
  | beaconChainError (e : BeaconChainError)
  | incorrectStateVariant
deriving DecidableEq

/-- The `BlockProductionError` variants produced by this module. -/
inductive BlockProductionError where
  | executionLayerMissing
  | shuttingDown
  | terminalPoWBlockLookupFailed (code : Nat)
  | beaconChain (code : Nat)
  | failedToReadFinalizedBlock (code : Nat)
  | missingFinalizedBlock (root : Hash)
  | getPayloadFailed (code : Nat)
deriving DecidableEq

/-- One call made to an external collaborator, recorded in program order. -/
inductive Effect where
  | engineNotifyNewPayload (payload : ExecutionPayload)
  | forkChoiceProcessInvalidExecutionPayload (op : InvalidationOperation)
  | engineIsValidTerminalPowBlockHash (h : Hash)
  | slotClockStartOf (slot : Nat)
  | engineGetTerminalPowBlockHash
  | forkChoiceGetBlock (root : Hash)
  | storeGetBlindedBlock (root : Hash)
  | engineGetPayload (parent_hash : Hash) (timestamp : Nat) (random : Hash)
      (finalized_block_hash : Hash) (proposer_index : Nat)
deriving DecidableEq

/-- The free function `notify_new_payload` (execution_payload.rs lines
85-131).  `execution_layer` is `some ()` when an engine connection is
configured.  `engine_response` is the engine's answer to the new-payload
submission (`Except.error` is a transport failure).  `invalidation_result`
is the outcome fork choice would report for a
`process_invalid_execution_payload` call; it is consulted only when such a
call is actually made, and that call is then recorded in the trace. -/
def notify_new_payload
    (execution_layer : Option Unit)
    (block : BeaconBlock)
    (engine_response : Except Nat PayloadStatus)
    (invalidation_result : Except BeaconChainError Unit) :
    Except BlockError PayloadVerificationStatus × List Effect :=
  match block.payload with
  | none => (.error .incorrectStateVariant, [])
  | some execution_payload =>
    match execution_layer with
    | none => (.error (.executionPayloadError .noExecutionConnection), [])
    | some _ =>
      match engine_response with
      | .error e =>
        (.error (.executionPayloadError (.requestFailed e)),
         [.engineNotifyNewPayload execution_payload])
      | .ok status =>
        match status with
        | .valid =>
          (.ok .verified, [.engineNotifyNewPayload execution_payload])
        | .syncing =>
          (.ok .optimistic, [.engineNotifyNewPayload execution_payload])
        | .accepted =>
          (.ok .optimistic, [.engineNotifyNewPayload execution_payload])
        | .invalid latest_valid_hash =>
          match invalidation_result with
          | .error e =>
            (.error (.beaconChainError e),
             [.engineNotifyNewPayload execution_payload,
              .forkChoiceProcessInvalidExecutionPayload
                (.invalidateMany block.parent_root false latest_valid_hash)])
          | .ok _ =>
            (.error (.executionPayloadError
                (.rejectedByExecutionEngine (.invalid latest_valid_hash))),
             [.engineNotifyNewPayload execution_payload,
              .forkChoiceProcessInvalidExecutionPayload
                (.invalidateMany block.parent_root false latest_valid_hash)])
        | .invalidTerminalBlock =>
          (.error (.executionPayloadError
              (.rejectedByExecutionEngine .invalidTerminalBlock)),
           [.engineNotifyNewPayload execution_payload])
        | .invalidBlockHash =>
          (.error (.executionPayloadError
              (.rejectedByExecutionEngine .invalidBlockHash)),
           [.engineNotifyNewPayload execution_payload])

/-- The `PayloadNotifier` struct: the pending block and the optionally
precomputed verification status. -/
structure PayloadNotifier where
  block : BeaconBlock
  payload_verification_status : Option PayloadVerificationStatus
deriving DecidableEq

/-- `PayloadNotifier::new` (lines 37-63).  `execution_enabled` is the value
of `is_execution_enabled(state, block.message().body())` (a
state-processing function outside this module), and `sanity_check_result`
the outcome of the local `partially_verify_execution_payload` checks, both
supplied by the caller.  When execution is not enabled the status
`Irrelevant` is precomputed and the sanity checks are skipped. -/
def PayloadNotifier.new (block : BeaconBlock) (execution_enabled : Bool)
    (sanity_check_result : Except Nat Unit) : Except BlockError PayloadNotifier :=
  if execution_enabled then
    match block.payload with
    | none => .error .incorrectStateVariant
    | some _ =>
      match sanity_check_result with
      | .error e => .error (.perBlockProcessingError e)
      | .ok _ => .ok { block := block, payload_verification_status := none }
  else
    .ok { block := block, payload_verification_status := some .irrelevant }

/-- `PayloadNotifier::notify_new_payload` (lines 65-73): return the
precomputed status if there is one, otherwise perform the full engine
round trip. -/
def PayloadNotifier.notify_new_payload (self : PayloadNotifier)
    (execution_layer : Option Unit)
    (engine_response : Except Nat PayloadStatus)
    (invalidation_result : Except BeaconChainError Unit) :
    Except BlockError PayloadVerificationStatus × List Effect :=
  match self.payload_verification_status with
  | some precomputed_status => (.ok precomputed_status, [])
  | none =>
    Lighthouse.notify_new_payload execution_layer self.block engine_response
      invalidation_result

/-- `validate_merge_block` (lines 145-193).  `slots_per_epoch` fixes the
epoch of the block's slot; `engine_answer` is the engine's reply to
`is_valid_terminal_pow_block_hash(payload.parent_hash)`, when it is asked. -/
def validate_merge_block
    (spec : ChainSpec)
    (slots_per_epoch : Nat)
    (block : BeaconBlock)
    (execution_layer : Option Unit)
    (engine_answer : Except Nat (Option Bool)) :
    Except BlockError Unit × List Effect :=
  let block_epoch := block.slot / slots_per_epoch
  match block.payload with
  | none => (.error .incorrectStateVariant, [])
  | some execution_payload =>
    if spec.terminal_block_hash ≠ 0 then
      if block_epoch < spec.terminal_block_hash_activation_epoch then
        (.error (.executionPayloadError
            (.invalidActivationEpoch spec.terminal_block_hash_activation_epoch
              block_epoch)), [])
      else if execution_payload.parent_hash ≠ spec.terminal_block_hash then
        (.error (.executionPayloadError
            (.invalidTerminalBlockHash spec.terminal_block_hash
              execution_payload.parent_hash)), [])
      else
        (.ok (), [])
    else
      match execution_layer with
      | none => (.error (.executionPayloadError .noExecutionConnection), [])
      | some _ =>
        match engine_answer with
        | .error e =>
          (.error (.executionPayloadError (.requestFailed e)),
           [.engineIsValidTerminalPowBlockHash execution_payload.parent_hash])
        | .ok (some true) =>
          (.ok (), [.engineIsValidTerminalPowBlockHash execution_payload.parent_hash])
        | .ok (some false) =>
          (.error (.executionPayloadError
              (.invalidTerminalPoWBlock execution_payload.parent_hash)),
           [.engineIsValidTerminalPowBlockHash execution_payload.parent_hash])
        | .ok none =>
          (.ok (), [.engineIsValidTerminalPowBlockHash execution_payload.parent_hash])

/-- The timestamp comparison of the gossip check (lines 222-240): performed
when the merge is complete for the parent or the payload is non-default. -/
def gossip_timestamp_check (block : BeaconBlock)
    (execution_payload : ExecutionPayload)
    (start_of : Nat → Option Nat)
    (is_merge_transition_complete : Bool) :
    Except BlockError Unit × List Effect :=
  if is_merge_transition_complete ∨ execution_payload ≠ default then
    match start_of block.slot with
    | none =>
      (.error (.beaconChainError .unableToComputeTimeAtSlot),
       [.slotClockStartOf block.slot])
    | some expected_timestamp =>
      if execution_payload.timestamp ≠ expected_timestamp then
        (.error (.executionPayloadError
            (.invalidPayloadTimestamp expected_timestamp
              execution_payload.timestamp)),
         [.slotClockStartOf block.slot])
      else
        (.ok (), [.slotClockStartOf block.slot])
  else
    (.ok (), [])

/-- `validate_execution_payload_for_gossip` (lines 197-244).  `start_of` is
the slot clock: the start time, in seconds, of a given slot.  A block whose
body has no parseable payload (`payload = none`) is accepted outright. -/
def validate_execution_payload_for_gossip
    (parent_block : ProtoBlock)
    (block : BeaconBlock)
    (start_of : Nat → Option Nat) :
    Except BlockError Unit × List Effect :=
  match block.payload with
  | none => (.ok (), [])
  | some execution_payload =>
    match parent_block.execution_status with
    | .invalid _ =>
      (.error (.parentExecutionPayloadInvalid parent_block.root), [])
    | .valid _ => gossip_timestamp_check block execution_payload start_of true
    | .optimistic _ => gossip_timestamp_check block execution_payload start_of true
    | .irrelevant _ => gossip_timestamp_check block execution_payload start_of false

/-- The engine `get_payload` request at the end of
`prepare_execution_payload` (lines 404-418): the finalized hint defaults to
the zero hash when unresolved. -/
def prepare_call_get_payload
    (timestamp : Nat) (random : Hash) (proposer_index : Nat)
    (get_payload : Hash → Nat → Hash → Hash → Nat → Except Nat ExecutionPayload)
    (parent_hash : Hash)
    (finalized_block_hash : Option Hash)
    (trace : List Effect) :
    Except BlockProductionError ExecutionPayload × List Effect :=
  let fbh := finalized_block_hash.getD 0
  match get_payload parent_hash timestamp random fbh proposer_index with
  | .error e =>
    (.error (.getPayloadFailed e),
     trace ++ [.engineGetPayload parent_hash timestamp random fbh proposer_index])
  | .ok execution_payload =>
    (.ok execution_payload,
     trace ++ [.engineGetPayload parent_hash timestamp random fbh proposer_index])

/-- The tail of `prepare_execution_payload` once the parent hash is resolved
(lines 365-418): look the finalized checkpoint up in fork choice, fall back
to the block store, then request the payload.  `fork_choice_lookup` is the
outcome of the dispatched `fork_choice.get_block(finalized_checkpoint.root)`
call and `store_lookup` the outcome of
`store.get_blinded_block(finalized_checkpoint.root)`. -/
def prepare_execution_payload_after_parent
    (timestamp : Nat) (random : Hash)
    (finalized_checkpoint : Checkpoint) (proposer_index : Nat)
    (fork_choice_lookup : Except Nat (Option ProtoBlock))
    (store_lookup : Except Nat (Option BeaconBlock))
    (get_payload : Hash → Nat → Hash → Hash → Nat → Except Nat ExecutionPayload)
    (parent_hash : Hash) :
    Except BlockProductionError ExecutionPayload × List Effect :=
  match fork_choice_lookup with
  | .error e =>
    (.error (.beaconChain e), [.forkChoiceGetBlock finalized_checkpoint.root])
  | .ok (some finalized_proto_block) =>
    prepare_call_get_payload timestamp random proposer_index get_payload
      parent_hash finalized_proto_block.execution_status.block_hash
      [.forkChoiceGetBlock finalized_checkpoint.root]
  | .ok none =>
    match store_lookup with
    | .error e =>
      (.error (.failedToReadFinalizedBlock e),
       [.forkChoiceGetBlock finalized_checkpoint.root,
        .storeGetBlindedBlock finalized_checkpoint.root])
    | .ok none =>
      (.error (.missingFinalizedBlock finalized_checkpoint.root),
       [.forkChoiceGetBlock finalized_checkpoint.root,
        .storeGetBlindedBlock finalized_checkpoint.root])
    | .ok (some stored_block) =>
      prepare_call_get_payload timestamp random proposer_index get_payload
        parent_hash (stored_block.payload.map (fun ep => ep.block_hash))
        [.forkChoiceGetBlock finalized_checkpoint.root,
         .storeGetBlindedBlock finalized_checkpoint.root]

/-- `prepare_execution_payload` (lines 318-419).  The engine connection is
checked first; pre-merge, either short-circuit returns the default payload;
otherwise the parent hash is resolved and the tail runs.
`get_terminal_pow_block_hash` is the engine's reply to that query, when it
is asked. -/
def prepare_execution_payload
    (spec : ChainSpec)
    (execution_layer : Option Unit)
    (current_epoch : Nat)
    (is_merge_transition_complete : Bool)
    (timestamp : Nat) (random : Hash)
    (finalized_checkpoint : Checkpoint)
    (proposer_index : Nat)
    (latest_execution_payload_header_block_hash : Hash)
    (get_terminal_pow_block_hash : Except Nat (Option Hash))
    (fork_choice_lookup : Except Nat (Option ProtoBlock))
    (store_lookup : Except Nat (Option BeaconBlock))
    (get_payload : Hash → Nat → Hash → Hash → Nat → Except Nat ExecutionPayload) :
    Except BlockProductionError ExecutionPayload × List Effect :=
  match execution_layer with
  | none => (.error .executionLayerMissing, [])
  | some _ =>
    if is_merge_transition_complete then
      prepare_execution_payload_after_parent timestamp random
        finalized_checkpoint proposer_index fork_choice_lookup store_lookup
        get_payload latest_execution_payload_header_block_hash
    else
      if spec.terminal_block_hash ≠ 0 ∧
          current_epoch < spec.terminal_block_hash_activation_epoch then
        (.ok default, [])
      else
        match get_terminal_pow_block_hash with
        | .error e =>
          (.error (.terminalPoWBlockLookupFailed e), [.engineGetTerminalPowBlockHash])
        | .ok none =>
          (.ok default, [.engineGetTerminalPowBlockHash])
        | .ok (some terminal_pow_block_hash) =>
          let tail := prepare_execution_payload_after_parent timestamp random
            finalized_checkpoint proposer_index fork_choice_lookup store_lookup
            get_payload terminal_pow_block_hash
          (tail.1, .engineGetTerminalPowBlockHash :: tail.2)

/-- A JSON value, as produced by the serde serializers of the registration
types: a bare number, a string, or an object with ordered fields. -/
inductive Json where
  | num (n : Nat)
  | str (s : String)
  | obj (fields : List (String × Json))

/-- The decimal digit character for a digit below ten. -/
def digitChar (d : Nat) : Char := Char.ofNat (48 + d)

/-- The digit value of a decimal digit character, `none` for any other
character. -/
def charDigit (c : Char) : Option Nat :=
  if 48 ≤ c.toNat ∧ c.toNat ≤ 57 then some (c.toNat - 48) else none

/-- Little-endian decimal digits of `n`, with an explicit fuel argument so
that the recursion is structural and evaluates inside the kernel. -/
def decDigitsAux : Nat → Nat → List Nat
  | _, 0 => []
  | 0, _ + 1 => []
  | fuel + 1, n + 1 => (n + 1) % 10 :: decDigitsAux fuel ((n + 1) / 10)

/-- Little-endian decimal digits of `n` (empty for zero). -/
def decDigits (n : Nat) : List Nat := decDigitsAux n n

/-- The decimal string for a natural number (most significant digit
first). -/
def decimalString (n : Nat) : String :=
  if n = 0 then "0" else String.mk ((decDigits n).reverse.map digitChar)

/-- Read a list of characters as decimal digit values, failing on any
non-digit. -/
def parseDigitList : List Char → Option (List Nat)
  | [] => some []
  | c :: cs =>
    match charDigit c, parseDigitList cs with
    | some d, some ds => some (d :: ds)
    | _, _ => none

/-- Parse a non-empty decimal string back to a natural number. -/
def parseDecimal (s : String) : Option Nat :=
  match s.data with
  | [] => none
  | l => Option.map (fun ds => Nat.ofDigits 10 ds.reverse) (parseDigitList l)

/-- Modelled from the spec: the `eth2_serde_utils::quoted_u64` deserializer
(that crate is not part of the sources) reads a u64 from a quoted decimal
string, rejecting values that overflow 64 bits. -/
def parseQuotedU64 : Json → Option Nat
  | .str s =>
    match parseDecimal s with
    | some n => if n < 2 ^ 64 then some n else none
    | none => none
  | _ => none

/-- `ValidatorRegistrationData`
(consensus/types/src/validator_registration_data.rs lines 11-20), with the
opaque `Address`, `PublicKeyBytes` and `Signature` fields represented as
natural numbers. -/
structure ValidatorRegistrationData where
  fee_recipient : Nat
  gas_limit : Nat
  timestamp : Nat
  pubkey : Nat
  signature : Nat
deriving DecidableEq

/-- `SignedValidatorRegistrationData` (lines 5-9). -/
structure SignedValidatorRegistrationData where
  message : ValidatorRegistrationData
  signature : Nat
deriving DecidableEq

/-- Modelled from the spec: serde serialization of
`ValidatorRegistrationData` — fields in declaration order, with the
`quoted_u64`-annotated `gas_limit` and `timestamp` encoded as quoted
decimal strings and the remaining fields as opaque values. -/
def ValidatorRegistrationData.toJson (v : ValidatorRegistrationData) : Json :=
  .obj [("fee_recipient", .num v.fee_recipient),
        ("gas_limit", .str (decimalString v.gas_limit)),
        ("timestamp", .str (decimalString v.timestamp)),
        ("pubkey", .num v.pubkey),
        ("signature", .num v.signature)]

/-- Modelled from the spec: serde deserialization of
`ValidatorRegistrationData`, reading `gas_limit` and `timestamp` through
the `quoted_u64` deserializer. -/
def ValidatorRegistrationData.fromJson : Json → Option ValidatorRegistrationData
  | .obj [("fee_recipient", .num fr), ("gas_limit", gj), ("timestamp", tj),
          ("pubkey", .num pk), ("signature", .num sg)] =>
    match parseQuotedU64 gj, parseQuotedU64 tj with
    | some g, some t => some ⟨fr, g, t, pk, sg⟩
    | _, _ => none
  | _ => none

/-- Modelled from the spec: serde serialization of
`SignedValidatorRegistrationData`. -/
def SignedValidatorRegistrationData.toJson
    (s : SignedValidatorRegistrationData) : Json :=
  .obj [("message", s.message.toJson), ("signature", .num s.signature)]

/-- Modelled from the spec: serde deserialization of
`SignedValidatorRegistrationData`. -/
def SignedValidatorRegistrationData.fromJson :
    Json → Option SignedValidatorRegistrationData
  | .obj [("message", mj), ("signature", .num sg)] =>
    match ValidatorRegistrationData.fromJson mj with
    | some m => some ⟨m, sg⟩
    | none => none
  | _ => none

/-- The fuel-based decimal digits agree with the mathematical ones once the
fuel covers the number. -/
theorem decDigitsAux_eq_digits (fuel : Nat) :
    ∀ n : Nat, n ≤ fuel → decDigitsAux fuel n = Nat.digits 10 n := by
  induction fuel with
  | zero =>
    intro n hn
    have h0 : n = 0 := Nat.le_zero.mp hn
    subst h0
    rw [Nat.digits_zero, decDigitsAux]
  | succ fuel ih =>
    intro n hn
    cases n with
    | zero => rw [Nat.digits_zero, decDigitsAux]
    | succ m =>
      rw [decDigitsAux, Nat.digits_def' (by norm_num : (1 : ℕ) < 10) (Nat.succ_pos m),
        ih ((m + 1) / 10)
          (Nat.le_of_lt_succ
            (Nat.lt_of_lt_of_le (Nat.div_lt_self (Nat.succ_pos m) (by norm_num)) hn))]

/-- The decimal digits used by the serializer are `Nat.digits 10`. -/
theorem decDigits_eq_digits (n : Nat) : decDigits n = Nat.digits 10 n :=
  decDigitsAux_eq_digits n n (Nat.le_refl n)

/-- Reading back a digit character below ten recovers the digit. -/
theorem charDigit_digitChar (d : Nat) (hd : d < 10) :
    charDigit (digitChar d) = some d := by
  interval_cases d <;> decide

/-- Parsing a list of rendered digit characters recovers the digits. -/
theorem parseDigitList_map_digitChar (ds : List Nat)
    (h : ∀ d ∈ ds, d < 10) :
    parseDigitList (ds.map digitChar) = some ds := by
  induction ds with
  | nil => rfl
  | cons d ds ih =>
    have hd : d < 10 := h d (List.mem_cons_self d ds)
    have hds : ∀ x ∈ ds, x < 10 := fun x hx => h x (List.mem_cons_of_mem d hx)
    simp only [List.map_cons, parseDigitList, charDigit_digitChar d hd, ih hds]

/-- Parsing a string built from an explicit non-empty character list. -/
theorem parseDecimal_mk (l : List Char) (hne : l ≠ []) :
    parseDecimal (String.mk l) =
      Option.map (fun ds => Nat.ofDigits 10 ds.reverse) (parseDigitList l) := by
  cases l with
  | nil => exact absurd rfl hne
  | cons c cs => rfl

/-- The decimal encoding round-trips through the decimal parser. -/
theorem parseDecimal_decimalString (n : Nat) :
    parseDecimal (decimalString n) = some n := by
  by_cases h : n = 0
  · subst h
    rfl
  · rw [decimalString, if_neg h]
    have h1 : Nat.digits 10 n ≠ [] := Nat.digits_ne_nil_iff_ne_zero.mpr h
    have hne : ((decDigits n).reverse.map digitChar) ≠ [] := by
      rw [decDigits_eq_digits]
      simp only [ne_eq, List.map_eq_nil_iff, List.reverse_eq_nil_iff]
      exact h1
    rw [parseDecimal_mk _ hne, decDigits_eq_digits]
    have hdigs : ∀ d ∈ (Nat.digits 10 n).reverse, d < 10 := fun d hd =>
      Nat.digits_lt_base (by norm_num) (List.mem_reverse.mp hd)
    rw [parseDigitList_map_digitChar _ hdigs]
    simp [Nat.ofDigits_digits]

/-- The quoted-u64 encoding round-trips for any value below 2 to the 64. -/
theorem parseQuotedU64_decimalString (n : Nat) (h : n < 2 ^ 64) :
    parseQuotedU64 (Json.str (decimalString n)) = some n := by
  rw [show (2 : ℕ) ^ 64 = 18446744073709551616 by norm_num] at h
  simp [parseQuotedU64, parseDecimal_decimalString, h]

/-- Claim C1: when the engine answers Invalid with latest valid hash H and
the triggered invalidation succeeds, notify_new_payload records exactly one
fork-choice call — InvalidateMany with head block root equal to the block's
parent root, always-invalidate-head false, and latest valid ancestor H — in
the effect trace emitted before the call returns, and the value returned to
the caller is the RejectedByExecutionEngine error carrying that status. -/
theorem c1_invalid_response_invalidates_parent_before_rejection
    (block : BeaconBlock) (p : ExecutionPayload) (hp : block.payload = some p)
    (h : Hash) :
    notify_new_payload (some ()) block (.ok (.invalid h)) (.ok ()) =
      (.error (.executionPayloadError (.rejectedByExecutionEngine (.invalid h))),
       [.engineNotifyNewPayload p,
        .forkChoiceProcessInvalidExecutionPayload
          (.invalidateMany block.parent_root false h)]) := by
  simp [notify_new_payload, hp]

/-- Witness for claim C1 at a concrete block and hash. -/
theorem c1_witness :
    notify_new_payload (some ()) ⟨0, 7, some ⟨1, 2, 3, 0⟩⟩ (.ok (.invalid 5))
        (.ok ()) =
      (.error (.executionPayloadError (.rejectedByExecutionEngine (.invalid 5))),
       [.engineNotifyNewPayload ⟨1, 2, 3, 0⟩,
        .forkChoiceProcessInvalidExecutionPayload (.invalidateMany 7 false 5)]) :=
  c1_invalid_response_invalidates_parent_before_rejection
    ⟨0, 7, some ⟨1, 2, 3, 0⟩⟩ ⟨1, 2, 3, 0⟩ rfl 5

/-- Claim C2: when the engine answers Invalid and the triggered fork-choice
invalidation itself fails, the error returned is the invalidation's
failure, not RejectedByExecutionEngine; RejectedByExecutionEngine is
returned only when the invalidation succeeds. -/
theorem c2_invalidation_failure_supersedes_rejection
    (block : BeaconBlock) (p : ExecutionPayload) (hp : block.payload = some p)
    (h : Hash) (e : BeaconChainError) :
    (notify_new_payload (some ()) block (.ok (.invalid h)) (.error e)).1 =
        .error (.beaconChainError e)
    ∧ ∀ r : Except BeaconChainError Unit,
        (notify_new_payload (some ()) block (.ok (.invalid h)) r).1 =
          .error (.executionPayloadError
            (.rejectedByExecutionEngine (.invalid h))) →
        r = .ok () := by
  refine ⟨by simp [notify_new_payload, hp], ?_⟩
  intro r hr
  match r with
  | .ok () => rfl
  | .error e2 => simp [notify_new_payload, hp] at hr

/-- Witness for claim C2 at a concrete block, hash and failure. -/
theorem c2_witness :
    ((notify_new_payload (some ()) ⟨0, 7, some ⟨1, 2, 3, 0⟩⟩ (.ok (.invalid 5))
        (.error (.other 4))).1 = .error (.beaconChainError (.other 4)))
    ∧ ∀ r : Except BeaconChainError Unit,
        (notify_new_payload (some ()) ⟨0, 7, some ⟨1, 2, 3, 0⟩⟩
            (.ok (.invalid 5)) r).1 =
          .error (.executionPayloadError
            (.rejectedByExecutionEngine (.invalid 5))) →
        r = .ok () :=
  c2_invalidation_failure_supersedes_rejection
    ⟨0, 7, some ⟨1, 2, 3, 0⟩⟩ ⟨1, 2, 3, 0⟩ rfl 5 (.other 4)

/-- Claim C3: on an InvalidTerminalBlock or InvalidBlockHash engine
response, notify_new_payload returns RejectedByExecutionEngine carrying
that status and the emitted trace contains no fork-choice call at all,
whatever outcome a fork-choice invalidation would have had. -/
theorem c3_terminal_rejections_skip_invalidation
    (block : BeaconBlock) (p : ExecutionPayload) (hp : block.payload = some p)
    (s : PayloadStatus)
    (hs : s = .invalidTerminalBlock ∨ s = .invalidBlockHash)
    (invalidation_result : Except BeaconChainError Unit) :
    notify_new_payload (some ()) block (.ok s) invalidation_result =
      (.error (.executionPayloadError (.rejectedByExecutionEngine s)),
       [.engineNotifyNewPayload p]) := by
  rcases hs with h | h <;> subst h <;> simp [notify_new_payload, hp]

/-- Witness for claim C3 at a concrete block with an InvalidTerminalBlock
response. -/
theorem c3_witness :
    notify_new_payload (some ()) ⟨0, 7, some ⟨1, 2, 3, 0⟩⟩
        (.ok .invalidTerminalBlock) (.error (.other 4)) =
      (.error (.executionPayloadError
          (.rejectedByExecutionEngine .invalidTerminalBlock)),
       [.engineNotifyNewPayload ⟨1, 2, 3, 0⟩]) :=
  c3_terminal_rejections_skip_invalidation ⟨0, 7, some ⟨1, 2, 3, 0⟩⟩
    ⟨1, 2, 3, 0⟩ rfl .invalidTerminalBlock (Or.inl rfl) (.error (.other 4))

/-- Claim C4: when execution is not enabled for the block, constructing the
PayloadNotifier always succeeds with precomputed status Irrelevant (the
local sanity checks are skipped, whatever their outcome), and the consuming
notify_new_payload call returns Irrelevant with an empty trace — zero
engine calls — for every engine configuration, including no connection. -/
theorem c4_execution_not_enabled_yields_irrelevant
    (block : BeaconBlock) (sanity_check_result : Except Nat Unit)
    (execution_layer : Option Unit)
    (engine_response : Except Nat PayloadStatus)
    (invalidation_result : Except BeaconChainError Unit) :
    PayloadNotifier.new block false sanity_check_result =
      .ok { block := block, payload_verification_status := some .irrelevant }
    ∧ PayloadNotifier.notify_new_payload
        { block := block, payload_verification_status := some .irrelevant }
        execution_layer engine_response invalidation_result =
      (.ok .irrelevant, []) :=
  ⟨rfl, rfl⟩

/-- Claim C5: with a non-zero override terminal block hash, an activation
epoch not yet reached fails with InvalidActivationEpoch, a reached epoch
with a mismatched payload parent hash fails with InvalidTerminalBlockHash,
and otherwise the block is accepted — with an empty trace, hence zero
engine calls, in all three cases. -/
theorem c5_override_terminal_hash_checks
    (spec : ChainSpec) (slots_per_epoch : Nat)
    (block : BeaconBlock) (p : ExecutionPayload) (hp : block.payload = some p)
    (execution_layer : Option Unit) (engine_answer : Except Nat (Option Bool))
    (hT : spec.terminal_block_hash ≠ 0) :
    (block.slot / slots_per_epoch < spec.terminal_block_hash_activation_epoch →
      validate_merge_block spec slots_per_epoch block execution_layer
          engine_answer =
        (.error (.executionPayloadError (.invalidActivationEpoch
            spec.terminal_block_hash_activation_epoch
            (block.slot / slots_per_epoch))), []))
    ∧ (¬ block.slot / slots_per_epoch <
          spec.terminal_block_hash_activation_epoch →
        p.parent_hash ≠ spec.terminal_block_hash →
        validate_merge_block spec slots_per_epoch block execution_layer
            engine_answer =
          (.error (.executionPayloadError (.invalidTerminalBlockHash
              spec.terminal_block_hash p.parent_hash)), []))
    ∧ (¬ block.slot / slots_per_epoch <
          spec.terminal_block_hash_activation_epoch →
        p.parent_hash = spec.terminal_block_hash →
        validate_merge_block spec slots_per_epoch block execution_layer
            engine_answer = (.ok (), [])) := by
  refine ⟨fun hlt => ?_, fun hge hne => ?_, fun hge heq => ?_⟩
  · simp [validate_merge_block, hp, hT, hlt]
  · simp [validate_merge_block, hp, hT, hge, hne]
  · simp [validate_merge_block, hp, hT, hge, heq]

/-- Witness for claim C5: epoch 10 against activation epoch 12 fails with
InvalidActivationEpoch carrying 12 and 10, with an empty trace. -/
theorem c5_witness :
    validate_merge_block ⟨9, 12⟩ 32 ⟨320, 0, some ⟨9, 0, 0, 0⟩⟩ none
        (.ok none) =
      (.error (.executionPayloadError (.invalidActivationEpoch 12 10)), []) :=
  (c5_override_terminal_hash_checks ⟨9, 12⟩ 32 ⟨320, 0, some ⟨9, 0, 0, 0⟩⟩
    ⟨9, 0, 0, 0⟩ rfl none (.ok none) (by decide)).1 (by decide)

/-- Claim C6: with no override configured (terminal block hash zero) and an
engine connection, the verdict mirrors the engine's tri-state answer about
the payload's parent hash: true accepts, false fails with
InvalidTerminalPoWBlock carrying the parent hash, unknown accepts — each
after exactly the one engine query; with no connection the branch fails
with NoExecutionConnection and no engine query. -/
theorem c6_no_override_mirrors_engine_tristate
    (spec : ChainSpec) (slots_per_epoch : Nat)
    (block : BeaconBlock) (p : ExecutionPayload) (hp : block.payload = some p)
    (hT : spec.terminal_block_hash = 0) :
    (∀ engine_answer : Except Nat (Option Bool),
      validate_merge_block spec slots_per_epoch block none engine_answer =
        (.error (.executionPayloadError .noExecutionConnection), []))
    ∧ validate_merge_block spec slots_per_epoch block (some ())
        (.ok (some true)) =
      (.ok (), [.engineIsValidTerminalPowBlockHash p.parent_hash])
    ∧ validate_merge_block spec slots_per_epoch block (some ())
        (.ok (some false)) =
      (.error (.executionPayloadError (.invalidTerminalPoWBlock p.parent_hash)),
       [.engineIsValidTerminalPowBlockHash p.parent_hash])
    ∧ validate_merge_block spec slots_per_epoch block (some ()) (.ok none) =
      (.ok (), [.engineIsValidTerminalPowBlockHash p.parent_hash]) := by
  refine ⟨fun engine_answer => ?_, ?_, ?_, ?_⟩ <;>
    simp [validate_merge_block, hp, hT]

/-- Witness for claim C6: a false engine answer at a concrete block fails
with InvalidTerminalPoWBlock. -/
theorem c6_witness :
    validate_merge_block ⟨0, 0⟩ 32 ⟨0, 0, some ⟨7, 0, 0, 0⟩⟩ (some ())
        (.ok (some false)) =
      (.error (.executionPayloadError (.invalidTerminalPoWBlock 7)),
       [.engineIsValidTerminalPowBlockHash 7]) :=
  (c6_no_override_mirrors_engine_tristate ⟨0, 0⟩ 32 ⟨0, 0, some ⟨7, 0, 0, 0⟩⟩
    ⟨7, 0, 0, 0⟩ rfl rfl).2.2.1

/-- Claim C7: the gossip check accepts any block without a parseable
payload; rejects immediately with ParentExecutionPayloadInvalid, without
consulting the slot clock, when the parent status is Invalid; accepts with
no timestamp check when the parent is Irrelevant and the payload is
default; and otherwise (parent Valid or Optimistic, or non-default
payload) consults the slot clock once and requires the payload timestamp
to equal the start of the block's slot exactly, a mismatch failing with
InvalidPayloadTimestamp carrying expected and found, and an uncomputable
slot time failing with UnableToComputeTimeAtSlot. -/
theorem c7_gossip_payload_checks
    (parent_block : ProtoBlock) (block : BeaconBlock)
    (start_of : Nat → Option Nat) :
    (block.payload = none →
      validate_execution_payload_for_gossip parent_block block start_of =
        (.ok (), []))
    ∧ (∀ (p : ExecutionPayload) (hsh : Hash), block.payload = some p →
        parent_block.execution_status = .invalid hsh →
        validate_execution_payload_for_gossip parent_block block start_of =
          (.error (.parentExecutionPayloadInvalid parent_block.root), []))
    ∧ (∀ hsh : Hash, block.payload = some default →
        parent_block.execution_status = .irrelevant hsh →
        validate_execution_payload_for_gossip parent_block block start_of =
          (.ok (), []))
    ∧ (∀ p : ExecutionPayload, block.payload = some p →
        ((∃ hsh, parent_block.execution_status = .valid hsh)
          ∨ (∃ hsh, parent_block.execution_status = .optimistic hsh)
          ∨ ((∃ hsh, parent_block.execution_status = .irrelevant hsh)
              ∧ p ≠ default)) →
        (∀ t : Nat, start_of block.slot = some t →
          validate_execution_payload_for_gossip parent_block block start_of =
            (if p.timestamp ≠ t then
              (.error (.executionPayloadError
                  (.invalidPayloadTimestamp t p.timestamp)),
               [.slotClockStartOf block.slot])
            else
              (.ok (), [.slotClockStartOf block.slot])))
        ∧ (start_of block.slot = none →
            validate_execution_payload_for_gossip parent_block block start_of =
              (.error (.beaconChainError .unableToComputeTimeAtSlot),
               [.slotClockStartOf block.slot]))) := by
  refine ⟨fun hnone => ?_, fun p hsh hp hst => ?_, fun hsh hp hst => ?_,
    fun p hp hcond => ⟨fun t ht => ?_, fun hnone => ?_⟩⟩
  · simp [validate_execution_payload_for_gossip, hnone]
  · simp [validate_execution_payload_for_gossip, hp, hst]
  · simp [validate_execution_payload_for_gossip, hp, hst,
      gossip_timestamp_check]
  · rcases hcond with ⟨hsh, hst⟩ | ⟨hsh, hst⟩ | ⟨⟨hsh, hst⟩, hnd⟩
    · simp [validate_execution_payload_for_gossip, hp, hst,
        gossip_timestamp_check, ht]
    · simp [validate_execution_payload_for_gossip, hp, hst,
        gossip_timestamp_check, ht]
    · simp [validate_execution_payload_for_gossip, hp, hst,
        gossip_timestamp_check, ht, hnd]
  · rcases hcond with ⟨hsh, hst⟩ | ⟨hsh, hst⟩ | ⟨⟨hsh, hst⟩, hnd⟩
    · simp [validate_execution_payload_for_gossip, hp, hst,
        gossip_timestamp_check, hnone]
    · simp [validate_execution_payload_for_gossip, hp, hst,
        gossip_timestamp_check, hnone]
    · simp [validate_execution_payload_for_gossip, hp, hst,
        gossip_timestamp_check, hnone, hnd]

/-- Witness for claim C7: a payload timestamp of 4 against an expected
start-of-slot time of 5 fails with InvalidPayloadTimestamp carrying 5 and
4, after one slot-clock consultation. -/
theorem c7_witness :
    validate_execution_payload_for_gossip ⟨9, .valid 1⟩
        ⟨3, 0, some ⟨0, 0, 4, 0⟩⟩ (fun s => some (s + 2)) =
      (.error (.executionPayloadError (.invalidPayloadTimestamp 5 4)),
       [.slotClockStartOf 3]) := by
  have h := ((c7_gossip_payload_checks ⟨9, .valid 1⟩ ⟨3, 0, some ⟨0, 0, 4, 0⟩⟩
    (fun s => some (s + 2))).2.2.2 ⟨0, 0, 4, 0⟩ rfl (Or.inl ⟨1, rfl⟩)).1 5 rfl
  simpa using h

/-- Claim C8: in the builder's finalized-hint resolution, a finalized root
present in fork choice contributes its execution block hash to the engine's
get_payload call; an absent root falls back to the stored block's payload
block hash when the stored block has a payload; and when the stored block
has no payload the zero hash is passed to get_payload. -/
theorem c8_finalized_hint_resolution
    (spec : ChainSpec) (current_epoch timestamp : Nat) (random : Hash)
    (finalized_checkpoint : Checkpoint) (proposer_index : Nat)
    (latest_hash : Hash)
    (get_terminal_pow_block_hash : Except Nat (Option Hash))
    (get_payload : Hash → Nat → Hash → Hash → Nat → Except Nat ExecutionPayload) :
    (∀ (store_lookup : Except Nat (Option BeaconBlock)) (pb : ProtoBlock)
        (hh : Hash), pb.execution_status.block_hash = some hh →
      (prepare_execution_payload spec (some ()) current_epoch true timestamp
          random finalized_checkpoint proposer_index latest_hash
          get_terminal_pow_block_hash (.ok (some pb)) store_lookup
          get_payload).2 =
        [.forkChoiceGetBlock finalized_checkpoint.root,
         .engineGetPayload latest_hash timestamp random hh proposer_index])
    ∧ (∀ (stored : BeaconBlock) (p : ExecutionPayload),
        stored.payload = some p →
        (prepare_execution_payload spec (some ()) current_epoch true timestamp
            random finalized_checkpoint proposer_index latest_hash
            get_terminal_pow_block_hash (.ok none) (.ok (some stored))
            get_payload).2 =
          [.forkChoiceGetBlock finalized_checkpoint.root,
           .storeGetBlindedBlock finalized_checkpoint.root,
           .engineGetPayload latest_hash timestamp random p.block_hash
             proposer_index])
    ∧ (∀ stored : BeaconBlock, stored.payload = none →
        (prepare_execution_payload spec (some ()) current_epoch true timestamp
            random finalized_checkpoint proposer_index latest_hash
            get_terminal_pow_block_hash (.ok none) (.ok (some stored))
            get_payload).2 =
          [.forkChoiceGetBlock finalized_checkpoint.root,
           .storeGetBlindedBlock finalized_checkpoint.root,
           .engineGetPayload latest_hash timestamp random 0 proposer_index]) := by
  refine ⟨fun store_lookup pb hh hbh => ?_, fun stored p hp => ?_,
    fun stored hp => ?_⟩
  · cases hgp : get_payload latest_hash timestamp random hh proposer_index with
    | error e =>
      simp [prepare_execution_payload, prepare_execution_payload_after_parent,
        prepare_call_get_payload, hbh, hgp]
    | ok q =>
      simp [prepare_execution_payload, prepare_execution_payload_after_parent,
        prepare_call_get_payload, hbh, hgp]
  · cases hgp : get_payload latest_hash timestamp random p.block_hash
        proposer_index with
    | error e =>
      simp [prepare_execution_payload, prepare_execution_payload_after_parent,
        prepare_call_get_payload, hp, hgp]
    | ok q =>
      simp [prepare_execution_payload, prepare_execution_payload_after_parent,
        prepare_call_get_payload, hp, hgp]
  · cases hgp : get_payload latest_hash timestamp random 0 proposer_index with
    | error e =>
      simp [prepare_execution_payload, prepare_execution_payload_after_parent,
        prepare_call_get_payload, hp, hgp]
    | ok q =>
      simp [prepare_execution_payload, prepare_execution_payload_after_parent,
        prepare_call_get_payload, hp, hgp]

/-- Witness for claim C8: a finalized root absent from fork choice whose
stored block has no payload sends the zero hash to get_payload. -/
theorem c8_witness :
    (prepare_execution_payload ⟨0, 0⟩ (some ()) 0 true 11 22 ⟨1, 33⟩ 44 55
        (.ok none) (.ok none) (.ok (some ⟨0, 0, none⟩))
        (fun _ _ _ _ _ => .error 0)).2 =
      [.forkChoiceGetBlock 33, .storeGetBlindedBlock 33,
       .engineGetPayload 55 11 22 0 44] :=
  (c8_finalized_hint_resolution ⟨0, 0⟩ 0 11 22 ⟨1, 33⟩ 44 55 (.ok none)
    (fun _ _ _ _ _ => .error 0)).2.2 ⟨0, 0, none⟩ rfl

/-- Claim C9: with no execution layer configured, prepare_execution_payload
fails with ExecutionLayerMissing before doing anything else — the trace is
empty and, the statement being universally quantified over every other
input, the pre-merge default-payload short-circuits are unreachable. -/
theorem c9_missing_execution_layer_fails_first
    (spec : ChainSpec) (current_epoch : Nat)
    (is_merge_transition_complete : Bool)
    (timestamp : Nat) (random : Hash)
    (finalized_checkpoint : Checkpoint) (proposer_index : Nat)
    (latest_hash : Hash)
    (get_terminal_pow_block_hash : Except Nat (Option Hash))
    (fork_choice_lookup : Except Nat (Option ProtoBlock))
    (store_lookup : Except Nat (Option BeaconBlock))
    (get_payload : Hash → Nat → Hash → Hash → Nat → Except Nat ExecutionPayload) :
    prepare_execution_payload spec none current_epoch
        is_merge_transition_complete timestamp random finalized_checkpoint
        proposer_index latest_hash get_terminal_pow_block_hash
        fork_choice_lookup store_lookup get_payload =
      (.error .executionLayerMissing, []) := rfl

/-- Claim C10: serializing a ValidatorRegistrationData and deserializing
the result yields the original value, with gas_limit and timestamp encoded
as quoted decimal strings rather than bare numbers, and the same round
trip holds for SignedValidatorRegistrationData. -/
theorem c10_validator_registration_roundtrip
    (v : ValidatorRegistrationData) (s : SignedValidatorRegistrationData)
    (hg : v.gas_limit < 2 ^ 64) (ht : v.timestamp < 2 ^ 64)
    (hg2 : s.message.gas_limit < 2 ^ 64) (ht2 : s.message.timestamp < 2 ^ 64) :
    ValidatorRegistrationData.fromJson v.toJson = some v
    ∧ v.toJson = Json.obj [("fee_recipient", .num v.fee_recipient),
        ("gas_limit", .str (decimalString v.gas_limit)),
        ("timestamp", .str (decimalString v.timestamp)),
        ("pubkey", .num v.pubkey),
        ("signature", .num v.signature)]
    ∧ SignedValidatorRegistrationData.fromJson s.toJson = some s := by
  have key : ∀ w : ValidatorRegistrationData, w.gas_limit < 2 ^ 64 →
      w.timestamp < 2 ^ 64 →
      ValidatorRegistrationData.fromJson w.toJson = some w := by
    intro w h1 h2
    simp [ValidatorRegistrationData.toJson, ValidatorRegistrationData.fromJson,
      parseQuotedU64_decimalString _ h1, parseQuotedU64_decimalString _ h2]
  refine ⟨key v hg ht, rfl, ?_⟩
  simp [SignedValidatorRegistrationData.toJson,
    SignedValidatorRegistrationData.fromJson, key s.message hg2 ht2]

/-- Witness for claim C10 at concrete registration values. -/
theorem c10_witness :
    ValidatorRegistrationData.fromJson
        (ValidatorRegistrationData.toJson ⟨1, 30000000, 95, 2, 3⟩) =
      some ⟨1, 30000000, 95, 2, 3⟩
    ∧ ValidatorRegistrationData.toJson ⟨1, 30000000, 95, 2, 3⟩ =
        Json.obj [("fee_recipient", .num 1),
          ("gas_limit", .str (decimalString 30000000)),
          ("timestamp", .str (decimalString 95)),
          ("pubkey", .num 2), ("signature", .num 3)]
    ∧ SignedValidatorRegistrationData.fromJson
        (SignedValidatorRegistrationData.toJson ⟨⟨4, 42, 7, 5, 6⟩, 9⟩) =
      some ⟨⟨4, 42, 7, 5, 6⟩, 9⟩ :=
  c10_validator_registration_roundtrip ⟨1, 30000000, 95, 2, 3⟩
    ⟨⟨4, 42, 7, 5, 6⟩, 9⟩ (by norm_num) (by norm_num) (by norm_num)
    (by norm_num)

end Lighthouse
